/-
  Verification of the IIIF image URL constraint-resolution engine
  (`iiif-image-handler.js`) and its MCP tool surface (`server.js`).

  The JavaScript source is shallowly embedded: numbers are modelled with
  `ℕ`/`ℚ` (exact real semantics for the floating-point arithmetic of the
  source; all quantities in range are integers or small rationals where the
  double computations and the exact computations agree on every input used
  in a theorem below), strings with `String`, fallible operations with
  `Except`, and the two network effects with explicit outcome parameters.
-/
import Mathlib

namespace IIIF

/-! ## Region parser (`parseRegion`, iiif-image-handler.js lines 198-223) -/

/-- The four distinct error conditions raised by `parseRegion`.  The first
two are classified by the error taxonomy (spec §7) as `InvalidRegionSyntax`,
the last two as `InvalidRegionBounds`. -/
inductive RegionError
  | mustBePctFormat      -- line 204: region is neither "full" nor "pct:…"
  | invalidPctFormat     -- line 209: not four numeric comma-separated values
  | negativeCoords       -- line 216: negative x/y or non-positive width/height
  | beyondBounds         -- line 219: x+width > 100 or y+height > 100
  deriving DecidableEq, Repr

/-- The classification of the spec's error taxonomy (§7): which of the four
raised errors are `InvalidRegionSyntax`. -/
def isInvalidRegionSyntax : RegionError → Bool
  | .mustBePctFormat => true
  | .invalidPctFormat => true
  | _ => false

/-- The classification of the spec's error taxonomy (§7): which of the four
raised errors are `InvalidRegionBounds`. -/
def isInvalidRegionBounds : RegionError → Bool
  | .negativeCoords => true
  | .beyondBounds => true
  | _ => false

/-- The exact message string of each error (lines 204, 209, 216, 219). -/
def regionErrorMessage : RegionError → String
  | .mustBePctFormat =>
      "Region must be \x22full\x22 or in \x22pct:\x22 format (e.g., \x22pct:20,20,50,50\x22)"
  | .invalidPctFormat =>
      "Invalid pct: region format. Expected \x22pct:x,y,width,height\x22 with numeric values"
  | .negativeCoords =>
      "Region coordinates must be non-negative and width/height must be positive"
  | .beyondBounds =>
      "Region extends beyond image boundaries (coordinates must not exceed 100%)"

/-- A parsed region descriptor: `{ type: 'full' }` or
`{ type: 'pct', x, y, width, height }`. -/
inductive ParsedRegion
  | full
  | pct (x y width height : ℚ)
  deriving DecidableEq, Repr

/-- Decimal digit test used by the numeric-literal model. -/
def isDigit (c : Char) : Bool := '0' ≤ c && c ≤ '9'

/-- Value of a list of decimal digits. -/
def digitsToNat (s : List Char) : ℕ :=
  s.foldl (fun n c => 10 * n + (c.toNat - 48)) 0

/-- The ECMAScript whitespace characters trimmed by `Number(string)`:
WhiteSpace (TAB, VT, FF, SP, NBSP, ZWNBSP and the Unicode Zs spaces) and
LineTerminator (LF, CR, LS, PS). -/
def isJsWhitespace (c : Char) : Bool :=
  c = ' ' ∨ c = '\t' ∨ c = '\n' ∨ c = '\r' ∨ c = '\x0B' ∨ c = '\x0C' ∨
    c = '\u00A0' ∨ c = '\uFEFF' ∨ c = '\u1680' ∨
    ('\u2000' ≤ c ∧ c ≤ '\u200A') ∨ c = '\u2028' ∨ c = '\u2029' ∨
    c = '\u202F' ∨ c = '\u205F' ∨ c = '\u3000'

/-- Strip leading and trailing ECMAScript whitespace. -/
def trimJsWhitespace (cs : List Char) : List Char :=
  ((cs.dropWhile isJsWhitespace).reverse.dropWhile isJsWhitespace).reverse

/-- Value of a single digit in radix up to 16, `none` for a non-digit. -/
def digitValue (c : Char) : Option ℕ :=
  if '0' ≤ c ∧ c ≤ '9' then some (c.toNat - 48)
  else if 'a' ≤ c ∧ c ≤ 'f' then some (c.toNat - 87)
  else if 'A' ≤ c ∧ c ≤ 'F' then some (c.toNat - 55)
  else none

/-- A non-empty all-digit string in the given radix (the `0x`/`0o`/`0b`
integer literal bodies of StringToNumber); `none` otherwise. -/
def parseRadix (radix : ℕ) (cs : List Char) : Option ℕ :=
  if cs = [] then none
  else
    cs.foldl
      (fun acc c =>
        match acc, digitValue c with
        | some n, some d => if d < radix then some (radix * n + d) else none
        | _, _ => none)
      (some 0)

/-- Apply an optional ExponentPart (`e`/`E`, optional sign, digits) to the
mantissa `m`; `none` when the remaining characters are not a well-formed
exponent (which makes the whole literal `NaN`). -/
def applyExponent (m : ℚ) (cs : List Char) : Option ℚ :=
  match cs with
  | [] => some m
  | e :: rest =>
    if e = 'e' ∨ e = 'E' then
      let signDigits : Bool × List Char :=
        match rest with
        | '+' :: t => (false, t)
        | '-' :: t => (true, t)
        | t => (false, t)
      match signDigits.2.span isDigit with
      | (digits, []) =>
          if digits = [] then none
          else if signDigits.1 then some (m / 10 ^ digitsToNat digits)
          else some (m * 10 ^ digitsToNat digits)
      | _ => none
    else none

/-- StrUnsignedDecimalLiteral without the `Infinity` case:
`digits [. digits] [exp]` or `. digits [exp]`. -/
def parseUnsignedDecimal (cs : List Char) : Option ℚ :=
  let (intPart, rest) := cs.span isDigit
  match rest with
  | '.' :: rest2 =>
      let (fracPart, rest3) := rest2.span isDigit
      if intPart = [] ∧ fracPart = [] then none
      else
        applyExponent
          ((digitsToNat intPart : ℚ) + (digitsToNat fracPart : ℚ) / 10 ^ fracPart.length)
          rest3
  | _ =>
      if intPart = [] then none
      else applyExponent (digitsToNat intPart) rest

/-- A non-`NaN` JavaScript number as produced by `Number(string)`: a finite
value or one of the two infinities (`Number("Infinity")`, `Number("-Infinity")`). -/
inductive JsNum
  | finite (q : ℚ)
  | posInf
  | negInf
  deriving DecidableEq, Repr

/-- The JavaScript `<` comparison on non-`NaN` numbers. -/
def JsNum.lt : JsNum → JsNum → Bool
  | .finite a, .finite b => decide (a < b)
  | .finite _, .posInf => true
  | .negInf, .finite _ => true
  | .negInf, .posInf => true
  | _, _ => false

/-- The JavaScript `<=` comparison on non-`NaN` numbers. -/
def JsNum.le : JsNum → JsNum → Bool
  | .finite a, .finite b => decide (a ≤ b)
  | .finite _, .posInf => true
  | .negInf, _ => true
  | .posInf, .posInf => true
  | _, _ => false

/-- The JavaScript `+` on non-`NaN` numbers; `none` models the `NaN` result
of `Infinity + -Infinity`. -/
def JsNum.add : JsNum → JsNum → Option JsNum
  | .finite a, .finite b => some (.finite (a + b))
  | .posInf, .negInf => none
  | .negInf, .posInf => none
  | .posInf, _ => some .posInf
  | _, .posInf => some .posInf
  | .negInf, _ => some .negInf
  | _, .negInf => some .negInf

/-- The underlying rational of a finite value; the infinite cases are
mapped to 0 but are unreachable on the only path that uses this
(`parsePctCoords` after its range checks — see `parsePctCoords_ok_finite`). -/
def JsNum.toRat : JsNum → ℚ
  | .finite q => q
  | _ => 0

/-- The source's `x + width > 100` test (line 218) under JS semantics: a
`NaN` sum compares false (it cannot arise for coordinates that passed the
sign checks, since those exclude `-Infinity` from every summand). -/
def jsSumGtHundred (a b : JsNum) : Bool :=
  match a.add b with
  | none => false
  | some s => JsNum.lt (.finite 100) s

/-- Model of the JavaScript `Number(string)` conversion (the ECMAScript
StringToNumber algorithm) applied to the comma-separated coordinate
substrings (line 207): leading/trailing whitespace is trimmed; the empty
string converts to 0; the numeric forms are `[+-]?Infinity`, signed decimal
literals with optional fraction and exponent, and unsigned `0x`/`0o`/`0b`
radix integers; everything else is `NaN`, modelled as `none`.  Two
deliberate exactness deviations, disclosed: a literal denotes its exact
rational value (no rounding to binary64), and a huge exponent does not
overflow to `Infinity`. -/
def jsNumber (s : String) : Option JsNum :=
  match trimJsWhitespace s.toList with
  | [] => some (.finite 0)
  | '0' :: 'x' :: rest => (parseRadix 16 rest).map (fun n => .finite n)
  | '0' :: 'X' :: rest => (parseRadix 16 rest).map (fun n => .finite n)
  | '0' :: 'o' :: rest => (parseRadix 8 rest).map (fun n => .finite n)
  | '0' :: 'O' :: rest => (parseRadix 8 rest).map (fun n => .finite n)
  | '0' :: 'b' :: rest => (parseRadix 2 rest).map (fun n => .finite n)
  | '0' :: 'B' :: rest => (parseRadix 2 rest).map (fun n => .finite n)
  | cs =>
      let signBody : Bool × List Char :=
        match cs with
        | '+' :: t => (false, t)
        | '-' :: t => (true, t)
        | t => (false, t)
      if signBody.2 = ['I', 'n', 'f', 'i', 'n', 'i', 't', 'y'] then
        some (if signBody.1 then .negInf else .posInf)
      else
        (parseUnsignedDecimal signBody.2).map
          (fun q => .finite (if signBody.1 then -q else q))

/-- The inner coordinate validation of `parseRegion` (lines 207-222), applied
to `region.substring(4).split(',').map(Number)`.  The source first tests
`coords.length !== 4 || coords.some(isNaN)` and then destructures; matching
the four-element all-numeric pattern directly is equivalent.  The range
checks use the JS comparisons on possibly-infinite values; a region that
passes them has four finite coordinates (`parsePctCoords_ok_finite`), which
the returned descriptor stores as exact rationals. -/
def parsePctCoords (coords : List (Option JsNum)) : Except RegionError ParsedRegion :=
  match coords with
  | [some x, some y, some width, some height] =>
      if x.lt (.finite 0) ∨ y.lt (.finite 0) ∨
          width.le (.finite 0) ∨ height.le (.finite 0) then
        .error .negativeCoords
      else if jsSumGtHundred x width ∨ jsSumGtHundred y height then
        .error .beyondBounds
      else
        .ok (.pct x.toRat y.toRat width.toRat height.toRat)
  | _ => .error .invalidPctFormat

/-- `parseRegion(region)` (lines 198-223).  `none` models an absent (`undefined`)
argument; the falsy empty string and the sentinel `"full"` also yield the
full-image descriptor (line 199). -/
def parseRegion (region : Option String) : Except RegionError ParsedRegion :=
  match region with
  | none => .ok .full
  | some r =>
    if r = "" ∨ r = "full" then .ok .full
    else if ¬ r.startsWith "pct:" then .error .mustBePctFormat
    else parsePctCoords (((r.drop 4).splitOn ",").map jsNumber)

/-! ## Region pixel dimensions (`calculateRegionDimensions`, lines 229-238) -/

/-- `Math.floor` of a non-negative rational, as a natural number. -/
def floorToNat (q : ℚ) : ℕ := (⌊q⌋).toNat

/-- `calculateRegionDimensions(parsedRegion, imageWidth, imageHeight)`
(lines 229-238): the full region keeps the native dimensions; a percentage
region floors `width_pct/100 × nativeWidth` (and symmetrically height). -/
def calculateRegionDimensions (parsedRegion : ParsedRegion)
    (imageWidth imageHeight : ℕ) : ℕ × ℕ :=
  match parsedRegion with
  | .full => (imageWidth, imageHeight)
  | .pct _ _ width height =>
      (floorToNat (width / 100 * imageWidth), floorToNat (height / 100 * imageHeight))

/-! ## Capability descriptor and constraint resolver
    (`calculateConstraints`, lines 124-150) -/

/-- The v2 profile-extension object nested in the descriptor's `profile`
list (as in the test fixture `mockInfoResponse.profile[1]`), carrying the
older generation's size-limit fields. -/
structure ProfileExt where
  maxWidth : Option ℕ
  maxHeight : Option ℕ
  maxArea : Option ℕ
  deriving DecidableEq, Repr

/-- The parsed `info.json` capability descriptor, restricted to the fields
the handler reads.  `width = 0` models a missing or zero `width` (both falsy
at line 58).  `isVersion3` is the result of the `'/image/3/'` scan over
`@context`/`profile` (lines 63-66), which no claim examines internally.
`profileExt` is the v2 extension object nested in the `profile` list; the
source's `calculateConstraints` never reads it. -/
structure Info where
  width : ℕ
  height : ℕ
  isVersion3 : Bool
  maxWidth : Option ℕ
  maxHeight : Option ℕ
  maxArea : Option ℕ
  profileExt : Option ProfileExt
  deriving DecidableEq, Repr

/-- The resolved constraint set.  In the source `maxArea` is always assigned
a number by `calculateConstraints` (line 127), but `calculateFinalDimensions`
tests it against `undefined` (line 169) — the unit tests call it with
`maxArea: undefined` — hence the `Option`. -/
structure Constraints where
  maxWidth : ℕ
  maxHeight : ℕ
  maxArea : Option ℕ
  deriving DecidableEq, Repr

/-- `calculateConstraints(info, width, height, isVersion3)` (lines 124-150),
with the handler's `this.maxDimension` passed explicitly.  Only the v3
top-level fields are consulted (lines 130-143); the v2 `profileExt` is
ignored by the source.  An absent v3 `maxHeight` falls back to `maxWidth`
(lines 136-139).  The handler ceiling clamps width and height last
(lines 146-147); `maxArea` is always returned set. -/
def calculateConstraints (info : Info) (width height : ℕ) (isVersion3 : Bool)
    (maxDimension : ℕ) : Constraints :=
  let maxWidth0 := width
  let maxHeight0 := height
  let maxArea0 := width * height
  let maxWidth1 :=
    if isVersion3 then
      match info.maxWidth with
      | some v => min maxWidth0 v
      | none => maxWidth0
    else maxWidth0
  let maxHeight1 :=
    if isVersion3 then
      match info.maxHeight with
      | some v => min maxHeight0 v
      | none =>
          match info.maxWidth with
          | some v => min maxHeight0 v
          | none => maxHeight0
    else maxHeight0
  let maxArea1 :=
    if isVersion3 then
      match info.maxArea with
      | some v => min maxArea0 v
      | none => maxArea0
    else maxArea0
  { maxWidth := min maxWidth1 maxDimension
    maxHeight := min maxHeight1 maxDimension
    maxArea := some maxArea1 }

/-! ## Dimension fitter (`calculateFinalDimensions`, lines 156-179) -/

/-- Target dimensions returned by the fitter. -/
structure Dimensions where
  targetWidth : ℕ
  targetHeight : ℕ
  deriving DecidableEq, Repr

/-- The linear fitting stage (lines 160-166): scale by
`min(maxWidth/width, maxHeight/height, 1.0)` and floor both dimensions. -/
def linearFitDimensions (width height : ℕ) (constraints : Constraints) : Dimensions :=
  let widthScale : ℚ := (constraints.maxWidth : ℚ) / (width : ℚ)
  let heightScale : ℚ := (constraints.maxHeight : ℚ) / (height : ℚ)
  let sizeScale : ℚ := min (min widthScale heightScale) 1
  { targetWidth := floorToNat ((width : ℚ) * sizeScale)
    targetHeight := floorToNat ((height : ℚ) * sizeScale) }

/-- Exact value of `Math.floor(n * Math.sqrt(a / c))` for naturals `n a c`
(the area-correction arithmetic of lines 172-174) in real semantics:
`⌊n·√(a/c)⌋ = ⌊√(n²·a/c)⌋ = Nat.sqrt ⌊n²·a/c⌋`, the last step because for
any real `x ≥ 0` one has `k ≤ √x < k+1 ↔ k² ≤ ⌊x⌋ < (k+1)²`. -/
def floorMulSqrt (n a c : ℕ) : ℕ := Nat.sqrt (n ^ 2 * a / c)

/-- `calculateFinalDimensions(width, height, constraints, isVersion3)`
(lines 156-179): linear fit, then — only for the newer generation with an
area bound present — a corrective `sqrt(maxArea/currentArea)` re-scale when
the fitted area exceeds the bound. -/
def calculateFinalDimensions (width height : ℕ) (constraints : Constraints)
    (isVersion3 : Bool) : Dimensions :=
  let d := linearFitDimensions width height constraints
  match isVersion3, constraints.maxArea with
  | true, some maxArea =>
      let currentArea := d.targetWidth * d.targetHeight
      if maxArea < currentArea then
        { targetWidth := floorMulSqrt d.targetWidth maxArea currentArea
          targetHeight := floorMulSqrt d.targetHeight maxArea currentArea }
      else d
  | _, _ => d

/-! ## Request builder (`determineSizeParameter`, lines 185-192) -/

/-- `determineSizeParameter(targetWidth, targetHeight, originalWidth,
originalHeight, isVersion3)` (lines 185-192): the version keyword when the
target equals the original dimensions, else the explicit pixel pair. -/
def determineSizeParameter (targetWidth targetHeight originalWidth originalHeight : ℕ)
    (isVersion3 : Bool) : String :=
  if targetWidth = originalWidth ∧ targetHeight = originalHeight then
    if isVersion3 then "max" else "full"
  else
    toString targetWidth ++ "," ++ toString targetHeight

/-! ## The resolution pipeline (`generateImageRegionUrl`, lines 26-118)

The two network effects are passed in as explicit outcome values: the
`info.json` fetch (lines 39-52, after `JSON.parse`) and the optional image
fetch (`fetchImageData`, lines 244-260). -/

/-- Outcome of the `info.json` fetch and parse (lines 39-52). -/
inductive InfoOutcome
  | httpError (status : ℕ) (statusText : String)   -- line 41: !response.ok
  | badJson (message : String)                     -- line 50: JSON.parse failure
  | parsed (info : Info)
  deriving DecidableEq, Repr

/-- Outcome of the image-bytes fetch inside `fetchImageData` (lines 244-253).
`contentType = none` models an absent content-type header (line 251). -/
inductive ImageOutcome
  | httpError (status : ℕ) (statusText : String)
  | ok (contentType : Option String) (base64 : String) (size : ℕ)
  deriving DecidableEq, Repr

/-- The `imageData` record built by `fetchImageData` (lines 255-259). -/
structure ImageData where
  contentType : String
  base64 : String
  size : ℕ
  deriving DecidableEq, Repr

/-- The `result.info` report assembled at lines 96-110. -/
structure InfoReport where
  originalDimensions : ℕ × ℕ
  regionDimensions : ℕ × ℕ
  finalDimensions : ℕ × ℕ
  apiVersion : String
  regionParam : String
  sizeParam : String
  constraints : Constraints
  deriving DecidableEq, Repr

/-- The result object of `generateImageRegionUrl` (lines 96-117). -/
structure RegionResult where
  imageUrl : String
  info : InfoReport
  imageData : Option ImageData
  deriving DecidableEq, Repr

/-- `baseUri.replace(/\/$/, '')` (line 35): strip one trailing slash. -/
def stripTrailingSlash (s : String) : String :=
  if s.endsWith "/" then s.dropRight 1 else s

/-- The region parameter rebuilt from the parsed coordinates (lines 92-93).
JavaScript number formatting is modelled by `ℚ`'s `toString`; no theorem
depends on the textual form of the coordinates. -/
def buildRegionParam (parsedRegion : ParsedRegion) : String :=
  match parsedRegion with
  | .full => "full"
  | .pct x y width height =>
      "pct:" ++ toString x ++ "," ++ toString y ++ "," ++
        toString width ++ "," ++ toString height

/-- `fetchImageData(imageUrl)` (lines 244-260) as a function of the fetch
outcome. -/
def fetchImageData (outcome : ImageOutcome) : Except String ImageData :=
  match outcome with
  | .httpError status statusText =>
      .error ("Failed to fetch image: HTTP " ++ toString status ++ ": " ++ statusText)
  | .ok contentType base64 size =>
      .ok { contentType := contentType.getD "image/jpeg", base64 := base64, size := size }

/-- `generateImageRegionUrl(baseUri, region, fetchImage)` (lines 26-118) with
the handler's `maxDimension` and the two fetch outcomes passed explicitly.
`baseUri = none` or the empty string is falsy at line 27; `region = none`
models an absent argument, which the JavaScript default turns into `'full'`
(handled identically by `parseRegion`).  Errors carry the thrown message. -/
def generateImageRegionUrl (maxDimension : ℕ) (baseUri : Option String)
    (region : Option String) (fetchImage : Bool)
    (infoOutcome : InfoOutcome) (imageOutcome : ImageOutcome) :
    Except String RegionResult :=
  match baseUri with
  | none => .error "baseUri parameter is required"
  | some b =>
    if b = "" then .error "baseUri parameter is required"
    else
      match parseRegion region with
      | .error e => .error (regionErrorMessage e)
      | .ok parsedRegion =>
        match infoOutcome with
        | .httpError status statusText =>
            .error ("HTTP " ++ toString status ++ ": " ++ statusText)
        | .badJson message =>
            .error ("Invalid JSON in info.json: " ++ message)
        | .parsed info =>
          if info.width = 0 ∨ info.height = 0 then
            .error "Missing width or height in info.json"
          else
            let width := info.width
            let height := info.height
            let isVersion3 := info.isVersion3
            let regionDimensions := calculateRegionDimensions parsedRegion width height
            let constraints :=
              calculateConstraints info regionDimensions.1 regionDimensions.2
                isVersion3 maxDimension
            let dimensions :=
              calculateFinalDimensions regionDimensions.1 regionDimensions.2
                constraints isVersion3
            let sizeParam :=
              determineSizeParameter dimensions.targetWidth dimensions.targetHeight
                width height isVersion3
            let regionParam := buildRegionParam parsedRegion
            let cleanBaseUri := stripTrailingSlash b
            let imageUrl :=
              cleanBaseUri ++ "/" ++ regionParam ++ "/" ++ sizeParam ++ "/0/default.jpg"
            let report : InfoReport :=
              { originalDimensions := (width, height)
                regionDimensions := regionDimensions
                finalDimensions := (dimensions.targetWidth, dimensions.targetHeight)
                apiVersion := if isVersion3 then "v3" else "v2"
                regionParam := regionParam
                sizeParam := sizeParam
                constraints := constraints }
            if fetchImage then
              match fetchImageData imageOutcome with
              | .error m => .error m
              | .ok d => .ok { imageUrl := imageUrl, info := report, imageData := some d }
            else
              .ok { imageUrl := imageUrl, info := report, imageData := none }

/-- `generateImageUrl(baseUri, fetchImage)` (lines 15-17): the source
delegates to `generateImageRegionUrl(baseUri, 'full', fetchImage)`. -/
def generateImageUrl (maxDimension : ℕ) (baseUri : Option String)
    (fetchImage : Bool) (infoOutcome : InfoOutcome) (imageOutcome : ImageOutcome) :
    Except String RegionResult :=
  generateImageRegionUrl maxDimension baseUri (some "full") fetchImage
    infoOutcome imageOutcome

/-- A direct full-image pipeline written out without the region stage, the
way the spec (§2, §4) and the repository's standalone full-image handler
variant describe the operation: native dimensions as the region, `"full"`
as the region parameter, everything else identical.  Compared against
`generateImageUrl` in the refinement theorem below. -/
def generateImageUrlDirect (maxDimension : ℕ) (baseUri : Option String)
    (fetchImage : Bool) (infoOutcome : InfoOutcome) (imageOutcome : ImageOutcome) :
    Except String RegionResult :=
  match baseUri with
  | none => .error "baseUri parameter is required"
  | some b =>
    if b = "" then .error "baseUri parameter is required"
    else
      match infoOutcome with
      | .httpError status statusText =>
          .error ("HTTP " ++ toString status ++ ": " ++ statusText)
      | .badJson message =>
          .error ("Invalid JSON in info.json: " ++ message)
      | .parsed info =>
        if info.width = 0 ∨ info.height = 0 then
          .error "Missing width or height in info.json"
        else
          let width := info.width
          let height := info.height
          let isVersion3 := info.isVersion3
          let constraints := calculateConstraints info width height isVersion3 maxDimension
          let dimensions := calculateFinalDimensions width height constraints isVersion3
          let sizeParam :=
            determineSizeParameter dimensions.targetWidth dimensions.targetHeight
              width height isVersion3
          let cleanBaseUri := stripTrailingSlash b
          let imageUrl :=
            cleanBaseUri ++ "/" ++ "full" ++ "/" ++ sizeParam ++ "/0/default.jpg"
          let report : InfoReport :=
            { originalDimensions := (width, height)
              regionDimensions := (width, height)
              finalDimensions := (dimensions.targetWidth, dimensions.targetHeight)
              apiVersion := if isVersion3 then "v3" else "v2"
              regionParam := "full"
              sizeParam := sizeParam
              constraints := constraints }
          if fetchImage then
            match fetchImageData imageOutcome with
            | .error m => .error m
            | .ok d => .ok { imageUrl := imageUrl, info := report, imageData := some d }
          else
            .ok { imageUrl := imageUrl, info := report, imageData := none }

/-! ## The MCP tool surface (`server.js`, `setupToolHandlers`, lines 86-201) -/

/-- The `resource` payload returned by the two image tools
(server.js lines 160-171 and 183-194). -/
structure ToolResource where
  uri : String
  mimeType : Option String
  blob : Option String
  deriving DecidableEq, Repr

/-- The `fetch_iiif_manifest` tool handler (server.js lines 89-152).  The
fetch-validate-serialise body inside the `try` block (lines 96-148) is
abstracted as the `inner` outcome — its internal logic is not at issue,
only the error wrapping around it.  Crucially, the missing-`url` check
(lines 92-94) sits *before* the `try`, so its error is not wrapped. -/
def fetchManifestTool (url : Option String) (inner : Except String String) :
    Except String String :=
  match url with
  | none => .error "URL parameter is required"
  | some u =>
    if u = "" then .error "URL parameter is required"
    else
      match inner with
      | .ok v => .ok v
      | .error m => .error ("Failed to fetch IIIF manifest: " ++ m)

/-- The `fetch_iiif_image` tool handler (server.js lines 154-175): calls
`generateImageUrl(baseUri, true)` inside `try` and wraps any error. -/
def fetchImageTool (maxDimension : ℕ) (baseUri : Option String)
    (infoOutcome : InfoOutcome) (imageOutcome : ImageOutcome) :
    Except String ToolResource :=
  match generateImageUrl maxDimension baseUri true infoOutcome imageOutcome with
  | .ok result =>
      .ok { uri := result.imageUrl
            mimeType := result.imageData.map (fun d => d.contentType)
            blob := result.imageData.map (fun d => d.base64) }
  | .error m => .error ("Failed to fetch IIIF image: " ++ m)

/-- The `fetch_iiif_image_region` tool handler (server.js lines 177-198):
calls `generateImageRegionUrl(baseUri, region, true)` inside `try` and wraps
any error.  An absent `region` falls through to the JavaScript parameter
default `'full'`, i.e. it produces no error at all. -/
def fetchImageRegionTool (maxDimension : ℕ) (baseUri region : Option String)
    (infoOutcome : InfoOutcome) (imageOutcome : ImageOutcome) :
    Except String ToolResource :=
  match generateImageRegionUrl maxDimension baseUri region true infoOutcome imageOutcome with
  | .ok result =>
      .ok { uri := result.imageUrl
            mimeType := result.imageData.map (fun d => d.contentType)
            blob := result.imageData.map (fun d => d.base64) }
  | .error m => .error ("Failed to fetch IIIF image region: " ++ m)

/-! ## Supporting lemmas -/

theorem floorToNat_le {q : ℚ} {n : ℕ} (h : q ≤ (n : ℚ)) : floorToNat q ≤ n := by
  unfold floorToNat
  rw [Int.toNat_le]
  calc ⌊q⌋ ≤ ⌊(n : ℚ)⌋ := Int.floor_le_floor h
    _ = (n : ℤ) := Int.floor_natCast n

theorem linearFit_targetWidth_le_maxWidth (width height : ℕ) (c : Constraints)
    (hw : 0 < width) :
    (linearFitDimensions width height c).targetWidth ≤ c.maxWidth := by
  have hw0 : (width : ℚ) ≠ 0 := Nat.cast_ne_zero.mpr hw.ne'
  show floorToNat ((width : ℚ) *
      min (min ((c.maxWidth : ℚ) / width) ((c.maxHeight : ℚ) / height)) 1) ≤ c.maxWidth
  apply floorToNat_le
  calc (width : ℚ) * min (min ((c.maxWidth : ℚ) / width) ((c.maxHeight : ℚ) / height)) 1
      ≤ (width : ℚ) * ((c.maxWidth : ℚ) / width) := by
        refine mul_le_mul_of_nonneg_left ?_ (by positivity)
        exact le_trans (min_le_left _ _) (min_le_left _ _)
    _ = (c.maxWidth : ℚ) := by rw [mul_comm]; exact div_mul_cancel₀ _ hw0

theorem linearFit_targetHeight_le_maxHeight (width height : ℕ) (c : Constraints)
    (hh : 0 < height) :
    (linearFitDimensions width height c).targetHeight ≤ c.maxHeight := by
  have hh0 : (height : ℚ) ≠ 0 := Nat.cast_ne_zero.mpr hh.ne'
  show floorToNat ((height : ℚ) *
      min (min ((c.maxWidth : ℚ) / width) ((c.maxHeight : ℚ) / height)) 1) ≤ c.maxHeight
  apply floorToNat_le
  calc (height : ℚ) * min (min ((c.maxWidth : ℚ) / width) ((c.maxHeight : ℚ) / height)) 1
      ≤ (height : ℚ) * ((c.maxHeight : ℚ) / height) := by
        refine mul_le_mul_of_nonneg_left ?_ (by positivity)
        exact le_trans (min_le_left _ _) (min_le_right _ _)
    _ = (c.maxHeight : ℚ) := by rw [mul_comm]; exact div_mul_cancel₀ _ hh0

theorem linearFit_targetWidth_le_width (width height : ℕ) (c : Constraints) :
    (linearFitDimensions width height c).targetWidth ≤ width := by
  show floorToNat ((width : ℚ) *
      min (min ((c.maxWidth : ℚ) / width) ((c.maxHeight : ℚ) / height)) 1) ≤ width
  apply floorToNat_le
  calc (width : ℚ) * min (min ((c.maxWidth : ℚ) / width) ((c.maxHeight : ℚ) / height)) 1
      ≤ (width : ℚ) * 1 :=
        mul_le_mul_of_nonneg_left (min_le_right _ _) (Nat.cast_nonneg width)
    _ = (width : ℚ) := mul_one _

theorem linearFit_targetHeight_le_height (width height : ℕ) (c : Constraints) :
    (linearFitDimensions width height c).targetHeight ≤ height := by
  show floorToNat ((height : ℚ) *
      min (min ((c.maxWidth : ℚ) / width) ((c.maxHeight : ℚ) / height)) 1) ≤ height
  apply floorToNat_le
  calc (height : ℚ) * min (min ((c.maxWidth : ℚ) / width) ((c.maxHeight : ℚ) / height)) 1
      ≤ (height : ℚ) * 1 :=
        mul_le_mul_of_nonneg_left (min_le_right _ _) (Nat.cast_nonneg height)
    _ = (height : ℚ) := mul_one _

theorem floorMulSqrt_le (n a c : ℕ) (hac : a ≤ c) : floorMulSqrt n a c ≤ n := by
  unfold floorMulSqrt
  have h1 : n ^ 2 * a / c ≤ n ^ 2 :=
    Nat.div_le_of_le_mul' (by calc n ^ 2 * a ≤ n ^ 2 * c := Nat.mul_le_mul_left _ hac
      _ = c * n ^ 2 := Nat.mul_comm _ _)
  calc Nat.sqrt (n ^ 2 * a / c) ≤ Nat.sqrt (n ^ 2) := Nat.sqrt_le_sqrt h1
    _ = n := Nat.sqrt_eq' n

theorem floorMulSqrt_area_le (tw th A : ℕ) (hpos : 0 < tw * th) :
    floorMulSqrt tw A (tw * th) * floorMulSqrt th A (tw * th) ≤ A := by
  unfold floorMulSqrt
  have hx2 : Nat.sqrt (tw ^ 2 * A / (tw * th)) ^ 2 * (tw * th) ≤ tw ^ 2 * A := by
    calc Nat.sqrt (tw ^ 2 * A / (tw * th)) ^ 2 * (tw * th)
        ≤ (tw ^ 2 * A / (tw * th)) * (tw * th) :=
          Nat.mul_le_mul_right _ (Nat.sqrt_le' _)
      _ ≤ tw ^ 2 * A := Nat.div_mul_le_self _ _
  have hy2 : Nat.sqrt (th ^ 2 * A / (tw * th)) ^ 2 * (tw * th) ≤ th ^ 2 * A := by
    calc Nat.sqrt (th ^ 2 * A / (tw * th)) ^ 2 * (tw * th)
        ≤ (th ^ 2 * A / (tw * th)) * (tw * th) :=
          Nat.mul_le_mul_right _ (Nat.sqrt_le' _)
      _ ≤ th ^ 2 * A := Nat.div_mul_le_self _ _
  have hmul : (Nat.sqrt (tw ^ 2 * A / (tw * th)) * Nat.sqrt (th ^ 2 * A / (tw * th))) ^ 2 *
      (tw * th) ^ 2 ≤ A ^ 2 * (tw * th) ^ 2 := by
    calc (Nat.sqrt (tw ^ 2 * A / (tw * th)) * Nat.sqrt (th ^ 2 * A / (tw * th))) ^ 2 *
        (tw * th) ^ 2
        = (Nat.sqrt (tw ^ 2 * A / (tw * th)) ^ 2 * (tw * th)) *
          (Nat.sqrt (th ^ 2 * A / (tw * th)) ^ 2 * (tw * th)) := by ring
      _ ≤ (tw ^ 2 * A) * (th ^ 2 * A) := Nat.mul_le_mul hx2 hy2
      _ = A ^ 2 * (tw * th) ^ 2 := by ring
  have hsq := Nat.le_of_mul_le_mul_right hmul (Nat.pos_pow_of_pos 2 hpos)
  exact (Nat.pow_le_pow_iff_left (two_ne_zero)).mp hsq

theorem finalDims_le_linearFit (width height : ℕ) (c : Constraints) (isVersion3 : Bool) :
    (calculateFinalDimensions width height c isVersion3).targetWidth ≤
      (linearFitDimensions width height c).targetWidth ∧
    (calculateFinalDimensions width height c isVersion3).targetHeight ≤
      (linearFitDimensions width height c).targetHeight := by
  unfold calculateFinalDimensions
  obtain ⟨mW, mH, mA⟩ := c
  cases isVersion3 with
  | false => exact ⟨le_refl _, le_refl _⟩
  | true =>
    cases mA with
    | none => exact ⟨le_refl _, le_refl _⟩
    | some A =>
      dsimp only
      split
      · next hlt =>
          have hle : A ≤ _ := le_of_lt hlt
          exact ⟨floorMulSqrt_le _ _ _ hle, floorMulSqrt_le _ _ _ hle⟩
      · exact ⟨le_refl _, le_refl _⟩

/-! ## Claim theorems -/

/-- C1: the claim states that for descriptors of the older API generation
(`isVersion3 = false`) whose profile list carries an extension object with
`maxWidth`/`maxHeight`/`maxArea`, `calculateConstraints` applies those fields
like the newer generation's top-level fields.  The code does not: its only
server-limit branch is guarded by `isVersion3` (line 130), so the v2 profile
extension is ignored entirely.  Evaluated here at the repository's own test
fixture (the Bodleian `mockInfoResponse` with profile extension
`maxWidth = 1000, maxHeight = 1000` and region dimensions 1260×2256, handler
ceiling 2000): the result keeps `maxWidth = 1260` and `maxHeight = 2000`
instead of the 1000/1000 the unit tests expect. -/
theorem c1_v2_profile_limits_ignored :
    calculateConstraints
        ⟨5040, 7520, false, none, none, none, some ⟨some 1000, some 1000, none⟩⟩
        1260 2256 false 2000 = ⟨1260, 2000, some 2842560⟩ ∧
    (calculateConstraints
        ⟨5040, 7520, false, none, none, none, some ⟨some 1000, some 1000, none⟩⟩
        1260 2256 false 2000).maxWidth ≠ 1000 ∧
    (calculateConstraints
        ⟨5040, 7520, false, none, none, none, some ⟨some 1000, some 1000, none⟩⟩
        1260 2256 false 2000).maxHeight ≠ 1000 := by
  refine ⟨rfl, ?_, ?_⟩ <;> decide

/-- C3 counterexample: with no server `maxArea` (and the handler having no
area ceiling at all), the constraint set returned by `calculateConstraints`
does *not* leave `maxArea` unset — it is always assigned the computed value
`width * height` (line 127), here `some 8000` for an 100×80 region. -/
theorem c3_maxArea_always_set_counterexample :
    (calculateConstraints ⟨100, 80, true, none, none, none, none⟩
        100 80 true 2000).maxArea = some 8000 ∧
    (calculateConstraints ⟨100, 80, true, none, none, none, none⟩
        100 80 true 2000).maxArea ≠ none := by
  refine ⟨rfl, ?_⟩; decide

/-- C3 amended: when the server's descriptor declares no `maxArea` (and the
handler configuration has no area ceiling — the source handler has none),
the returned `maxArea` is not unset but equals the region's own area
`width * height`, the unconstrained bound, for either API generation. -/
theorem c3_maxArea_defaults_to_region_area (info : Info)
    (width height maxDimension : ℕ) (isVersion3 : Bool)
    (hma : info.maxArea = none) :
    (calculateConstraints info width height isVersion3 maxDimension).maxArea
      = some (width * height) := by
  unfold calculateConstraints
  cases isVersion3 <;> simp [hma]

/-- C3 witness: the amended theorem applied at the counterexample's input. -/
theorem c3_maxArea_defaults_witness :
    (calculateConstraints ⟨100, 80, true, none, none, none, none⟩
        100 80 true 2000).maxArea = some (100 * 80) :=
  c3_maxArea_defaults_to_region_area ⟨100, 80, true, none, none, none, none⟩
    100 80 2000 true rfl

/-- C4: for every region dimensions (positive, so that the JavaScript
division semantics and the exact semantics agree) and every constraint set,
`calculateFinalDimensions` returns a target width within `maxWidth`, a
target height within `maxHeight`, and — for the newer generation with an
area bound present — a target area within `maxArea` (exactly, which is
stronger than the claim's one-pixel truncation tolerance). -/
theorem c4_fit_respects_constraints (width height : ℕ) (c : Constraints)
    (isVersion3 : Bool) (hw : 0 < width) (hh : 0 < height) :
    (calculateFinalDimensions width height c isVersion3).targetWidth ≤ c.maxWidth ∧
    (calculateFinalDimensions width height c isVersion3).targetHeight ≤ c.maxHeight ∧
    (∀ A, isVersion3 = true → c.maxArea = some A →
      (calculateFinalDimensions width height c isVersion3).targetWidth *
        (calculateFinalDimensions width height c isVersion3).targetHeight ≤ A) := by
  refine ⟨le_trans (finalDims_le_linearFit width height c isVersion3).1
      (linearFit_targetWidth_le_maxWidth width height c hw),
    le_trans (finalDims_le_linearFit width height c isVersion3).2
      (linearFit_targetHeight_le_maxHeight width height c hh), ?_⟩
  intro A hv3 hmA
  subst hv3
  unfold calculateFinalDimensions
  obtain ⟨mW, mH, mA⟩ := c
  obtain rfl : mA = some A := hmA
  dsimp only
  split
  · next hlt =>
      exact floorMulSqrt_area_le _ _ A (Nat.lt_of_le_of_lt (Nat.zero_le A) hlt)
  · next hge => exact Nat.le_of_not_lt hge

/-- C4 witness: the theorem applied at the 5040×7520 source with
constraints 1000×1000 and area bound 700000 (newer generation). -/
theorem c4_fit_respects_constraints_witness :
    (calculateFinalDimensions 5040 7520 ⟨1000, 1000, some 700000⟩ true).targetWidth ≤ 1000 ∧
    (calculateFinalDimensions 5040 7520 ⟨1000, 1000, some 700000⟩ true).targetHeight ≤ 1000 ∧
    (∀ A, true = true → (some 700000 : Option ℕ) = some A →
      (calculateFinalDimensions 5040 7520 ⟨1000, 1000, some 700000⟩ true).targetWidth *
        (calculateFinalDimensions 5040 7520 ⟨1000, 1000, some 700000⟩ true).targetHeight ≤ A) :=
  c4_fit_respects_constraints 5040 7520 ⟨1000, 1000, some 700000⟩ true
    (by decide) (by decide)

/-- C5: the fitter never upsizes — the target dimensions are bounded by the
source dimensions both after the linear fitting stage
(`linearFitDimensions`, lines 160-166, because the scale is capped at 1.0)
and after the optional area-correction stage (which only shrinks). -/
theorem c5_never_upsizes (width height : ℕ) (c : Constraints) (isVersion3 : Bool) :
    (linearFitDimensions width height c).targetWidth ≤ width ∧
    (linearFitDimensions width height c).targetHeight ≤ height ∧
    (calculateFinalDimensions width height c isVersion3).targetWidth ≤ width ∧
    (calculateFinalDimensions width height c isVersion3).targetHeight ≤ height :=
  ⟨linearFit_targetWidth_le_width width height c,
   linearFit_targetHeight_le_height width height c,
   le_trans (finalDims_le_linearFit width height c isVersion3).1
     (linearFit_targetWidth_le_width width height c),
   le_trans (finalDims_le_linearFit width height c isVersion3).2
     (linearFit_targetHeight_le_height width height c)⟩

/-- C6: a newer-generation descriptor declaring `maxWidth = 1000` and
omitting `maxHeight` resolves `maxHeight` to 1000 whenever the region
height and the handler ceiling do not cut below it (as in the spec's
example, region 2000×3000 with ceiling 2000); moreover the absent
`maxHeight` is treated exactly as if `maxHeight = 1000` had been declared
(lines 136-139), for every region size and ceiling. -/
theorem c6_absent_maxHeight_mirrors_maxWidth (info : Info)
    (width height maxDimension : ℕ)
    (hmw : info.maxWidth = some 1000) (hmh : info.maxHeight = none)
    (hh : 1000 ≤ height) (hd : 1000 ≤ maxDimension) :
    (calculateConstraints info width height true maxDimension).maxHeight = 1000 ∧
    calculateConstraints info width height true maxDimension
      = calculateConstraints { info with maxHeight := some 1000 }
          width height true maxDimension := by
  unfold calculateConstraints
  simp only [hmw, hmh]
  constructor
  · show min (min height 1000) maxDimension = 1000
    rw [min_eq_right hh, min_eq_left hd]
  · trivial

/-- C6 witness: the theorem at the spec's example descriptor
(`width = 2000, height = 3000, maxWidth = 1000`, no `maxHeight`, handler
ceiling 2000). -/
theorem c6_absent_maxHeight_mirrors_maxWidth_witness :
    (calculateConstraints ⟨2000, 3000, true, some 1000, none, none, none⟩
        2000 3000 true 2000).maxHeight = 1000 ∧
    calculateConstraints ⟨2000, 3000, true, some 1000, none, none, none⟩
        2000 3000 true 2000
      = calculateConstraints
          { (⟨2000, 3000, true, some 1000, none, none, none⟩ : Info) with
              maxHeight := some 1000 } 2000 3000 true 2000 :=
  c6_absent_maxHeight_mirrors_maxWidth ⟨2000, 3000, true, some 1000, none, none, none⟩
    2000 3000 2000 rfl rfl (by decide) (by decide)

/-- C8 counterexample: for the 5040×7520 source with constraints
`maxWidth = 1000, maxHeight = 1000` (full region, newer generation, no area
bound — the unit test's exact call), the fitter yields (670, 1000), not the
(670, 999) the claim states: the height scale `1000/7520` is attained
exactly, `7520 × (1000/7520) = 1000`, so flooring loses nothing on the
height. -/
theorem c8_example_counterexample :
    calculateFinalDimensions 5040 7520 ⟨1000, 1000, none⟩ true = ⟨670, 1000⟩ ∧
    calculateFinalDimensions 5040 7520 ⟨1000, 1000, none⟩ true ≠ ⟨670, 999⟩ := by
  have h : calculateFinalDimensions 5040 7520 ⟨1000, 1000, none⟩ true = ⟨670, 1000⟩ := by
    with_unfolding_all rfl
  refine ⟨h, ?_⟩
  rw [h]
  decide

/-- C8 amended: the fitter computes scale
`min(1000/5040, 1000/7520, 1.0) = 1000/7520` and yields exactly (670, 1000)
after flooring each dimension — the width floors from 670.21…, the height is
exact. -/
theorem c8_example_amended :
    min (min ((1000 : ℚ) / 5040) ((1000 : ℚ) / 7520)) 1 = 1000 / 7520 ∧
    calculateFinalDimensions 5040 7520 ⟨1000, 1000, none⟩ true = ⟨670, 1000⟩ := by
  constructor <;> with_unfolding_all rfl

theorem parsePctCoords_none_mem (cs : List (Option JsNum)) (hn : none ∈ cs) :
    parsePctCoords cs = .error .invalidPctFormat := by
  rcases cs with _ | ⟨_ | x0, _ | ⟨_ | x1, _ | ⟨_ | x2, _ | ⟨_ | x3, _ | ⟨c4, rest⟩⟩⟩⟩⟩ <;>
    first
      | rfl
      | simp_all

theorem parsePctCoords_bounds (a b c d : JsNum)
    (hover : jsSumGtHundred a c = true ∨ jsSumGtHundred b d = true) :
    ∃ e, parsePctCoords [some a, some b, some c, some d] = .error e ∧
      isInvalidRegionBounds e = true := by
  unfold parsePctCoords
  dsimp only
  by_cases hneg : a.lt (.finite 0) = true ∨ b.lt (.finite 0) = true ∨
      c.le (.finite 0) = true ∨ d.le (.finite 0) = true
  · exact ⟨.negativeCoords, by rw [if_pos hneg], rfl⟩
  · exact ⟨.beyondBounds, by rw [if_neg hneg, if_pos hover], rfl⟩

theorem parsePctCoords_ok_finite (a b c d : JsNum) (x y w h : ℚ)
    (hok : parsePctCoords [some a, some b, some c, some d] = .ok (.pct x y w h)) :
    a = .finite x ∧ b = .finite y ∧ c = .finite w ∧ d = .finite h := by
  unfold parsePctCoords at hok
  dsimp only at hok
  by_cases hneg : a.lt (.finite 0) = true ∨ b.lt (.finite 0) = true ∨
      c.le (.finite 0) = true ∨ d.le (.finite 0) = true
  · rw [if_pos hneg] at hok; exact Except.noConfusion hok
  · rw [if_neg hneg] at hok
    by_cases hover : jsSumGtHundred a c = true ∨ jsSumGtHundred b d = true
    · rw [if_pos hover] at hok; exact Except.noConfusion hok
    · rw [if_neg hover] at hok
      injection hok with hok
      injection hok with hx hy hw hh
      push_neg at hneg hover
      obtain ⟨hna, hnb, hnc, hnd⟩ := hneg
      obtain ⟨hoac, hobd⟩ := hover
      subst hx; subst hy; subst hw; subst hh
      cases a <;> cases c <;>
        first
        | exact absurd rfl hna
        | exact absurd rfl hnc
        | exact absurd rfl hoac
        | cases b <;> cases d <;>
            first
            | exact absurd rfl hnb
            | exact absurd rfl hnd
            | exact absurd rfl hobd
            | exact ⟨rfl, rfl, rfl, rfl⟩

theorem parseRegion_pct (r : String) (hst : r.startsWith "pct:" = true) :
    parseRegion (some r) = parsePctCoords (((r.drop 4).splitOn ",").map jsNumber) := by
  have h1 : r ≠ "" := by
    intro h; subst h
    rw [show ("" : String).startsWith "pct:" = false from by with_unfolding_all rfl] at hst
    exact Bool.noConfusion hst
  have h2 : r ≠ "full" := by
    intro h; subst h
    rw [show ("full" : String).startsWith "pct:" = false from by with_unfolding_all rfl] at hst
    exact Bool.noConfusion hst
  unfold parseRegion
  dsimp only
  rw [if_neg (by rintro (h | h) <;> [exact h1 h; exact h2 h]),
    if_neg (not_not_intro hst)]

/-- C7: `parseRegion` fails with an `InvalidRegionBounds`-class error for
every selector that parses to four numeric (non-`NaN`) coordinates whose
JS-semantics sums satisfy `x + width > 100` or `y + height > 100` (whether
or not a coordinate is also negative, both bounds branches are
`InvalidRegionBounds` per the spec's §7 taxonomy); it fails with an
`InvalidRegionSyntax`-class error for every `"pct:"`-prefixed selector one
of whose comma-separated coordinates is not numeric (`Number` gives `NaN`);
and an absent, empty or `"full"` selector always yields the full-image
descriptor. -/
theorem c7_parseRegion_error_classification :
    (∀ (r : String) (a b c d : JsNum),
        r.startsWith "pct:" = true →
        ((r.drop 4).splitOn ",").map jsNumber = [some a, some b, some c, some d] →
        (jsSumGtHundred a c = true ∨ jsSumGtHundred b d = true) →
        ∃ e, parseRegion (some r) = .error e ∧ isInvalidRegionBounds e = true) ∧
    (∀ r : String,
        r.startsWith "pct:" = true →
        none ∈ ((r.drop 4).splitOn ",").map jsNumber →
        ∃ e, parseRegion (some r) = .error e ∧ isInvalidRegionSyntax e = true) ∧
    parseRegion none = .ok .full ∧
    parseRegion (some "full") = .ok .full ∧
    parseRegion (some "") = .ok .full := by
  refine ⟨?_, ?_, rfl, ?_, ?_⟩
  · intro r a b c d hst hcs hover
    rw [parseRegion_pct r hst, hcs]
    exact parsePctCoords_bounds a b c d hover
  · intro r hst hn
    exact ⟨.invalidPctFormat,
      by rw [parseRegion_pct r hst]; exact parsePctCoords_none_mem _ hn, rfl⟩
  · with_unfolding_all rfl
  · with_unfolding_all rfl

set_option maxRecDepth 16000 in
/-- C7 witness: the theorem applied to the concrete selectors
`"pct:0,0,150,20"` (out of range: 0 + 150 > 100), `"pct: 10, 10, 10, 95"`
(whitespace-padded coordinates, all numeric to `Number`, 10 + 95 > 100),
`"pct:1e3,0,10,10"` (exponent form, 1000 + 10 > 100),
`"pct:Infinity,0,10,10"` (infinite coordinate, overflowing every bound) and
`"pct:a,0,10,10"` (non-numeric first coordinate). -/
theorem c7_parseRegion_error_classification_witness :
    (∃ e, parseRegion (some "pct:0,0,150,20") = .error e ∧
        isInvalidRegionBounds e = true) ∧
    (∃ e, parseRegion (some "pct: 10, 10, 10, 95") = .error e ∧
        isInvalidRegionBounds e = true) ∧
    (∃ e, parseRegion (some "pct:1e3,0,10,10") = .error e ∧
        isInvalidRegionBounds e = true) ∧
    (∃ e, parseRegion (some "pct:Infinity,0,10,10") = .error e ∧
        isInvalidRegionBounds e = true) ∧
    (∃ e, parseRegion (some "pct:a,0,10,10") = .error e ∧
        isInvalidRegionSyntax e = true) :=
  ⟨c7_parseRegion_error_classification.1 "pct:0,0,150,20"
      (.finite 0) (.finite 0) (.finite 150) (.finite 20)
      (by with_unfolding_all rfl) (by with_unfolding_all rfl)
      (by with_unfolding_all decide),
   c7_parseRegion_error_classification.1 "pct: 10, 10, 10, 95"
      (.finite 10) (.finite 10) (.finite 10) (.finite 95)
      (by with_unfolding_all rfl) (by with_unfolding_all rfl)
      (by with_unfolding_all decide),
   c7_parseRegion_error_classification.1 "pct:1e3,0,10,10"
      (.finite 1000) (.finite 0) (.finite 10) (.finite 10)
      (by with_unfolding_all rfl) (by with_unfolding_all rfl)
      (by with_unfolding_all decide),
   c7_parseRegion_error_classification.1 "pct:Infinity,0,10,10"
      .posInf (.finite 0) (.finite 10) (.finite 10)
      (by with_unfolding_all rfl) (by with_unfolding_all rfl)
      (by with_unfolding_all decide),
   c7_parseRegion_error_classification.2.1 "pct:a,0,10,10"
      (by with_unfolding_all rfl) (by with_unfolding_all decide)⟩

set_option maxRecDepth 8000 in
/-- C9 counterexample: the `fetch_iiif_manifest` handler's missing-`url`
check is performed before its `try` block (server.js lines 92-94), so that
error reaches the caller *without* the tool-specific prefix, contradicting
the claim that every propagated error — including errors for absent
required parameters — begins with the prefix. -/
theorem c9_manifest_missing_url_unwrapped :
    fetchManifestTool none (.ok "manifest") = .error "URL parameter is required" ∧
    ("URL parameter is required").startsWith "Failed to fetch IIIF manifest: "
      = false :=
  ⟨rfl, by with_unfolding_all rfl⟩

/-- C9 amended: every error raised inside a tool's `try` block is wrapped
with that tool's prefix with the underlying message preserved verbatim —
for the image and image-region tools this includes the missing-`baseUri`
error, which is raised inside the wrapped handler call; only the manifest
tool's missing-`url` error, thrown before its `try` block, propagates
without a prefix. -/
theorem c9_error_wrapping_amended :
    (∀ (u m : String), u ≠ "" →
        fetchManifestTool (some u) (.error m)
          = .error ("Failed to fetch IIIF manifest: " ++ m)) ∧
    (∀ (maxDimension : ℕ) (baseUri : Option String) (io : InfoOutcome)
        (im : ImageOutcome) (m : String),
        fetchImageTool maxDimension baseUri io im = .error m →
        ∃ m0, m = "Failed to fetch IIIF image: " ++ m0 ∧
          generateImageUrl maxDimension baseUri true io im = .error m0) ∧
    (∀ (maxDimension : ℕ) (baseUri region : Option String) (io : InfoOutcome)
        (im : ImageOutcome) (m : String),
        fetchImageRegionTool maxDimension baseUri region io im = .error m →
        ∃ m0, m = "Failed to fetch IIIF image region: " ++ m0 ∧
          generateImageRegionUrl maxDimension baseUri region true io im = .error m0) ∧
    (∀ (maxDimension : ℕ) (io : InfoOutcome) (im : ImageOutcome),
        fetchImageTool maxDimension none io im
          = .error ("Failed to fetch IIIF image: baseUri parameter is required")) ∧
    (∀ (maxDimension : ℕ) (region : Option String) (io : InfoOutcome)
        (im : ImageOutcome),
        fetchImageRegionTool maxDimension none region io im
          = .error ("Failed to fetch IIIF image region: baseUri parameter is required")) ∧
    fetchManifestTool none (.ok "x") = .error "URL parameter is required" := by
  refine ⟨?_, ?_, ?_, ?_, ?_, rfl⟩
  · intro u m hu
    unfold fetchManifestTool
    dsimp only
    rw [if_neg hu]
  · intro maxDimension baseUri io im m hm
    unfold fetchImageTool at hm
    cases heq : generateImageUrl maxDimension baseUri true io im with
    | ok res => rw [heq] at hm; exact Except.noConfusion hm
    | error m0 =>
        rw [heq] at hm
        injection hm with h
        exact ⟨m0, h.symm, rfl⟩
  · intro maxDimension baseUri region io im m hm
    unfold fetchImageRegionTool at hm
    cases heq : generateImageRegionUrl maxDimension baseUri region true io im with
    | ok res => rw [heq] at hm; exact Except.noConfusion hm
    | error m0 =>
        rw [heq] at hm
        injection hm with h
        exact ⟨m0, h.symm, rfl⟩
  · intro maxDimension io im; rfl
  · intro maxDimension region io im; rfl

/-- C9 witness: the amended theorem applied to a failed manifest fetch and
a failed image `info.json` fetch. -/
theorem c9_error_wrapping_amended_witness :
    fetchManifestTool (some "http://m") (.error "HTTP 404: Not Found")
      = .error ("Failed to fetch IIIF manifest: HTTP 404: Not Found") ∧
    (∃ m0, "Failed to fetch IIIF image: HTTP 500: boom"
        = "Failed to fetch IIIF image: " ++ m0 ∧
      generateImageUrl 2000 (some "b") true (.httpError 500 "boom") (.ok none "" 0)
        = .error m0) :=
  ⟨c9_error_wrapping_amended.1 "http://m" "HTTP 404: Not Found" (by decide),
   c9_error_wrapping_amended.2.1 2000 (some "b") (.httpError 500 "boom")
     (.ok none "" 0) "Failed to fetch IIIF image: HTTP 500: boom"
     (by with_unfolding_all rfl)⟩

theorem pixelPair_ne_max (a b : ℕ) : toString a ++ "," ++ toString b ≠ "max" := by
  intro h
  have hmem : ',' ∈ (toString a ++ "," ++ toString b).data := by
    rw [String.data_append, String.data_append]
    exact List.mem_append.2 (Or.inl (List.mem_append.2 (Or.inr (by decide))))
  rw [h] at hmem
  exact absurd hmem (by decide)

theorem pixelPair_ne_full (a b : ℕ) : toString a ++ "," ++ toString b ≠ "full" := by
  intro h
  have hmem : ',' ∈ (toString a ++ "," ++ toString b).data := by
    rw [String.data_append, String.data_append]
    exact List.mem_append.2 (Or.inl (List.mem_append.2 (Or.inr (by decide))))
  rw [h] at hmem
  exact absurd hmem (by decide)

theorem generateImageRegionUrl_ok_shape (maxDimension : ℕ)
    (baseUri region : Option String) (fetchImage : Bool) (io : InfoOutcome)
    (im : ImageOutcome) (res : RegionResult)
    (hres : generateImageRegionUrl maxDimension baseUri region fetchImage io im
      = .ok res) :
    ∃ info : Info,
      res.info.originalDimensions = (info.width, info.height) ∧
      res.info.apiVersion = (if info.isVersion3 then "v3" else "v2") ∧
      res.info.sizeParam = determineSizeParameter res.info.finalDimensions.1
        res.info.finalDimensions.2 info.width info.height info.isVersion3 := by
  unfold generateImageRegionUrl at hres
  cases baseUri with
  | none => exact Except.noConfusion hres
  | some b =>
    dsimp only at hres
    by_cases hb : b = ""
    · rw [if_pos hb] at hres; exact Except.noConfusion hres
    · rw [if_neg hb] at hres
      cases hpr : parseRegion region with
      | error e => rw [hpr] at hres; exact Except.noConfusion hres
      | ok pr =>
        rw [hpr] at hres
        dsimp only at hres
        cases io with
        | httpError status statusText => exact Except.noConfusion hres
        | badJson message => exact Except.noConfusion hres
        | parsed info =>
          dsimp only at hres
          by_cases hwh : info.width = 0 ∨ info.height = 0
          · rw [if_pos hwh] at hres; exact Except.noConfusion hres
          · rw [if_neg hwh] at hres
            refine ⟨info, ?_⟩
            cases fetchImage with
            | false =>
                injection hres with h
                rw [← h]
                exact ⟨rfl, rfl, rfl⟩
            | true =>
                cases him : fetchImageData im with
                | error m =>
                    rw [him] at hres
                    exact Except.noConfusion hres
                | ok d =>
                    rw [him] at hres
                    injection hres with h
                    rw [← h]
                    exact ⟨rfl, rfl, rfl⟩

/-- C2 counterexample: a `pct:30,30,10,10` region of a 1000×1000 v2 image
under a 2000 ceiling needs no scaling — the final dimensions (100, 100)
equal the region's native pixel dimensions — yet the size parameter is the
explicit pixel pair `"100,100"`, not the keyword, because the code compares
the target against the *full image's* dimensions (line 186), not the
region's. -/
theorem c2_keyword_vs_region_dims_counterexample :
    (generateImageRegionUrl 2000 (some "http://x") (some "pct:30,30,10,10") false
        (.parsed ⟨1000, 1000, false, none, none, none, none⟩)
        (.httpError 404 "nf")).toOption.map
      (fun res => (res.info.sizeParam, res.info.finalDimensions,
        res.info.regionDimensions))
      = some ("100,100", (100, 100), (100, 100)) ∧
    ("100,100" : String) ≠ "full" ∧ ("100,100" : String) ≠ "max" := by
  refine ⟨by with_unfolding_all rfl, by decide, by decide⟩

/-- C2 amended: for every successful resolution call, the size parameter is
the version-appropriate keyword (`"max"` for v3, `"full"` for v2) when and
only when the computed target dimensions equal the *full image's* native
dimensions (the `originalDimensions` of the report) — not the region's; in
every other case it is the explicit pixel pair `"{width},{height}"`.  In
particular a percentage region smaller than the image gets a pixel pair
even when no scaling occurred. -/
theorem c2_keyword_iff_image_native_dims (maxDimension : ℕ)
    (baseUri region : Option String) (fetchImage : Bool) (io : InfoOutcome)
    (im : ImageOutcome) (res : RegionResult)
    (hres : generateImageRegionUrl maxDimension baseUri region fetchImage io im
      = .ok res) :
    (res.info.sizeParam = (if res.info.apiVersion = "v3" then "max" else "full")
      ↔ res.info.finalDimensions = res.info.originalDimensions) ∧
    (res.info.finalDimensions ≠ res.info.originalDimensions →
      res.info.sizeParam = toString res.info.finalDimensions.1 ++ "," ++
        toString res.info.finalDimensions.2) := by
  obtain ⟨info, hod, hapi, hsp⟩ :=
    generateImageRegionUrl_ok_shape maxDimension baseUri region fetchImage io im res hres
  rw [hod, hapi, hsp]
  unfold determineSizeParameter
  by_cases hd : res.info.finalDimensions.1 = info.width ∧
      res.info.finalDimensions.2 = info.height
  · cases hv3 : info.isVersion3 <;>
      simp [hd, Prod.ext_iff]
  · cases hv3 : info.isVersion3 <;>
      simp [hd, Prod.ext_iff, pixelPair_ne_max, pixelPair_ne_full]

/-- C2 witness: the amended theorem applied to a full-region v2 call on a
100×80 image that needs no scaling — the size parameter is the keyword
`"full"` and the final dimensions equal the native dimensions.  The stated
form is the theorem's conclusion with the concrete result's fields
reduced. -/
theorem c2_keyword_iff_image_native_dims_witness :
    (("full" : String) = (if ("v2" : String) = "v3" then "max" else "full")
      ↔ ((100, 80) : ℕ × ℕ) = ((100, 80) : ℕ × ℕ)) ∧
    (((100, 80) : ℕ × ℕ) ≠ ((100, 80) : ℕ × ℕ) →
      ("full" : String) = toString (100 : ℕ) ++ "," ++ toString (80 : ℕ)) :=
  c2_keyword_iff_image_native_dims 2000 (some "b") none false
    (.parsed ⟨100, 80, false, none, none, none, none⟩) (.httpError 404 "nf")
    ⟨"b/full/full/0/default.jpg",
      ⟨(100, 80), (100, 80), (100, 80), "v2", "full", "full", ⟨100, 80, some 8000⟩⟩,
      none⟩
    (by with_unfolding_all rfl)

/-- C10: `generateImageUrl(baseUri, fetchImage)` behaves exactly as
`generateImageRegionUrl(baseUri, 'full', fetchImage)` — the source
delegates (line 16), so the first equation is definitional — and both agree
with a direct full-image pipeline written out without the region stage
(native dimensions as the region, `"full"` as the region parameter), for
every base URI, fetch flag and fetch outcome. -/
theorem c10_full_image_refines_region_full (maxDimension : ℕ)
    (baseUri : Option String) (fetchImage : Bool) (io : InfoOutcome)
    (im : ImageOutcome) :
    generateImageUrl maxDimension baseUri fetchImage io im
      = generateImageRegionUrl maxDimension baseUri (some "full") fetchImage io im ∧
    generateImageUrl maxDimension baseUri fetchImage io im
      = generateImageUrlDirect maxDimension baseUri fetchImage io im := by
  refine ⟨rfl, ?_⟩
  have hpr : parseRegion (some "full") = .ok .full := by with_unfolding_all rfl
  show generateImageRegionUrl maxDimension baseUri (some "full") fetchImage io im
    = generateImageUrlDirect maxDimension baseUri fetchImage io im
  unfold generateImageRegionUrl generateImageUrlDirect
  cases baseUri with
  | none => rfl
  | some b =>
    dsimp only
    by_cases hb : b = ""
    · rw [if_pos hb, if_pos hb]
    · rw [if_neg hb, if_neg hb, hpr]
      dsimp only
      cases io with
      | httpError status statusText => rfl
      | badJson message => rfl
      | parsed info =>
        dsimp only
        by_cases hwh : info.width = 0 ∨ info.height = 0
        · rw [if_pos hwh, if_pos hwh]
        · rw [if_neg hwh, if_neg hwh]
          cases fetchImage with
          | false => rfl
          | true => cases fetchImageData im <;> rfl

end IIIF
